import Mathlib

/- Verification of the NmapAI-gility scan-orchestration core: a shallow
embedding of the Python sources (src/nmapai.py, src/nmapai/core/*.py,
src/nmapai/plugins/scanners/*.py) as executable Lean definitions, together
with theorems settling the behavioural claims about deduplication, scoring,
attack-chain correlation, XML-report parsing, greppable-summary extraction,
the secondary-scan fan-out and its concurrency bound, and the orchestrator's
failure propagation.

Python strings are modelled as Lean `String`s; all string manipulation is
implemented over the underlying character list so that every definition
evaluates by kernel reduction on concrete inputs.  Python dicts built with a
fixed key set are modelled as structures whose optional fields mirror
`dict.get` accesses.  Python floats carry exact decimal values in every code
path relevant here, so they are modelled as rationals. -/

namespace NmapAI

/-- Python whitespace, as recognised by `str.split()` and `str.strip()`. -/
def pyWs (c : Char) : Bool :=
  c = ' ' || c = '\t' || c = '\n' || c = '\r' || c = '\x0b' || c = '\x0c'

/-- Python `needle in hay` on strings: `needle` occurs contiguously in `hay`. -/
def listContainsSub (hay needle : List Char) : Bool :=
  needle.isPrefixOf hay ||
    match hay with
    | [] => false
    | _ :: t => listContainsSub t needle

/-- Python `needle in hay` lifted to `String`. -/
def strContains (hay needle : String) : Bool :=
  listContainsSub hay.data needle.data

/-- Python `s.lower()` (ASCII case folding suffices for every string the
sources compare). -/
def strLower (s : String) : String :=
  ⟨s.data.map Char.toLower⟩

/-- Python `s.strip()`: drop leading and trailing whitespace. -/
def strStrip (s : String) : String :=
  ⟨((s.data.dropWhile pyWs).reverse.dropWhile pyWs).reverse⟩

/-- Split a character list at every character satisfying `p`, keeping
empty fields (splitting the empty list yields one empty field). -/
def splitPred (p : Char → Bool) : List Char → List (List Char)
  | [] => [[]]
  | c :: rest =>
    if p c then [] :: splitPred p rest
    else
      match splitPred p rest with
      | [] => [[c]]
      | g :: gs => (c :: g) :: gs

/-- Python `s.split(sep)` for a one-character separator: empty fields are
kept. -/
def splitChar (sep : Char) (s : String) : List String :=
  (splitPred (fun c => c = sep) s.data).map String.mk

/-- Python `s.split()` (no separator): split on whitespace, dropping the
empty fields, which is the same as splitting on whitespace runs. -/
def splitWs (s : String) : List String :=
  ((splitPred pyWs s.data).filter (fun g => g ≠ [])).map String.mk

/-- A port value inside a vulnerability dict: the nmap extraction stores
the parsed integer, the nikto extraction stores the target's port
string. -/
inductive PortValue where
  | num (n : Nat)
  | str (s : String)
deriving DecidableEq

/-- A vulnerability dict as built by `ScannerManager._extract_vulnerabilities`
and later mutated by the enrichers (`nvd_enricher.py`, `epss_enricher.py`):
optional fields mirror the `dict.get` accesses performed by the sources. -/
structure VulnRecord where
  cve_id : Option String := none
  host : Option String := none
  port : Option PortValue := none
  service : Option String := none
  source : Option String := none
  description : Option String := none
  cvss_score : Option ℚ := none
  severity : Option String := none
  epss_score : Option ℚ := none
  priority_score : Option ℚ := none
  risk_level : Option String := none
deriving DecidableEq

/-- The deduplication key of `ScannerManager._extract_vulnerabilities`
(scanner_manager.py lines 199): `(vuln.get("cve_id"), vuln.get("host"))`. -/
def vulnKey (v : VulnRecord) : Option String × Option String :=
  (v.cve_id, v.host)

/-- The deduplication loop of `ScannerManager._extract_vulnerabilities`
(scanner_manager.py lines 195-202): walk the list in insertion order,
keeping a vulnerability only when its `(cve_id, host)` key has not been
seen before. -/
def dedupeAux : List VulnRecord → List (Option String × Option String) → List VulnRecord
  | [], _ => []
  | v :: rest, seen =>
    if vulnKey v ∈ seen then dedupeAux rest seen
    else v :: dedupeAux rest (vulnKey v :: seen)

/-- Deduplication by `(cve_id, host)`, first occurrence wins. -/
def dedupe (vulns : List VulnRecord) : List VulnRecord :=
  dedupeAux vulns []

/-- An `address` element of the structured report.  Per the report schema
(spec §6 and the primary scanner's DTD) an address element always carries
its `addrtype` and `addr` attributes. -/
structure AddressElem where
  addrtype : String
  addr : String
deriving DecidableEq

/-- A `hostname` element, with its `type` and `name` attributes. -/
structure HostnameElem where
  type : String
  name : String
deriving DecidableEq

/-- A `service` element; every attribute is read with `Element.get`, which
yields `None` when the attribute is absent. -/
structure ServiceElem where
  name : Option String := none
  product : Option String := none
  version : Option String := none
  extrainfo : Option String := none
deriving DecidableEq

/-- A `script` element; `id` and `output` are mandatory per the report
schema (`_parse_host` copies them verbatim, and the extraction phase
lowercases `id`, which presupposes it is present). -/
structure ScriptElem where
  id : String
  output : String
deriving DecidableEq

/-- A `port` element: `portid` (numeric, the source applies `int`) and
`protocol` attributes, the `state` attribute of the `state` sub-element
(`none` when that sub-element is missing), an optional `service`
sub-element, and the `script` sub-elements in document order. -/
structure PortElem where
  portid : Nat
  protocol : String
  state : Option String := none
  service : Option ServiceElem := none
  scripts : List ScriptElem := []
deriving DecidableEq

/-- An `osmatch` element with its `name` attribute (read with `get`, hence
optional) and numeric `accuracy` attribute (read with `get(…, 0)`). -/
structure OsMatchElem where
  name : Option String := none
  accuracy : Nat := 0
deriving DecidableEq

/-- A `host` element of the structured report: the `state` attribute of its
mandatory `status` element (schema §6: every host element has a status),
and its address / hostname / port / osmatch descendants in document
order. -/
structure HostElem where
  status : String
  addresses : List AddressElem := []
  hostnames : List HostnameElem := []
  ports : List PortElem := []
  osmatches : List OsMatchElem := []
deriving DecidableEq

/-- The service part of a parsed port (`port_data["service"]`). -/
structure ServiceInfo where
  name : String
  product : Option String := none
  version : Option String := none
  extrainfo : Option String := none
deriving DecidableEq

/-- A parsed port (`port_data` in `NmapScanner._parse_host`). -/
structure PortData where
  port : Nat
  protocol : String
  state : String
  service : Option ServiceInfo := none
  scripts : List ScriptElem := []
deriving DecidableEq

/-- Parsed OS info (`os_info` in `NmapScanner._parse_host`). -/
structure OsInfo where
  name : Option String := none
  accuracy : Nat := 0
deriving DecidableEq

/-- A parsed host (the dict returned by `NmapScanner._parse_host`). -/
structure HostData where
  ip : String
  hostname : Option String := none
  ports : List PortData := []
  os : Option OsInfo := none
  state : String := "up"
deriving DecidableEq

/-- The structured-output file as seen by `NmapScanner._parse_xml`:
missing on disk, present but unparseable (`ET.parse` raises on truncated
or malformed XML), or parsed into its host elements. -/
inductive XmlSource where
  | missing
  | malformed (msg : String)
  | parsed (hosts : List HostElem)

namespace NmapScanner

/-- The port loop body of `NmapScanner._parse_host` (nmap_scanner.py lines
232-263): skip a port whose `state` sub-element is missing or not
`"open"`; otherwise build the port dict, defaulting the service name to
`"unknown"`. -/
def parse_port (p : PortElem) : Option PortData :=
  match p.state with
  | none => none
  | some st =>
    if st = "open" then
      some
        { port := p.portid
          protocol := p.protocol
          state := st
          service := p.service.map (fun s =>
            { name := s.name.getD "unknown"
              product := s.product
              version := s.version
              extrainfo := s.extrainfo })
          scripts := p.scripts }
    else none

/-- The address lookup of `NmapScanner._parse_host` (lines 216-219): the
first `address` element with `addrtype="ipv4"`, else the first with
`addrtype="ipv6"`. -/
def findAddr (h : HostElem) : Option AddressElem :=
  match h.addresses.find? (fun a => a.addrtype == "ipv4") with
  | some a => some a
  | none => h.addresses.find? (fun a => a.addrtype == "ipv6")

/-- `NmapScanner._parse_host` (lines 213-280): `None` when the host has
neither an IPv4 nor an IPv6 address element; otherwise the host dict with
the user hostname, the open ports, and the first `osmatch` element. -/
def parse_host (h : HostElem) : Option HostData :=
  match findAddr h with
  | none => none
  | some a =>
    some
      { ip := a.addr
        hostname := (h.hostnames.find? (fun hn => hn.type == "user")).map (·.name)
        ports := h.ports.filterMap parse_port
        os := h.osmatches.head?.map (fun o => { name := o.name, accuracy := o.accuracy })
        state := "up" }

/-- `NmapScanner._parse_xml` (lines 189-211): an absent file returns `[]`;
a file `ET.parse` cannot read is caught by the `except` clause, logged as
a warning, and returns `[]`; otherwise hosts whose status is not `"up"`
are skipped and the rest go through `_parse_host`. -/
def parse_xml : XmlSource → List HostData
  | .missing => []
  | .malformed _ => []
  | .parsed hosts => (hosts.filter (fun h => h.status == "up")).filterMap parse_host

/-- Claim-side indicator (claims C6/C10 wording): the host element carries
an IPv4 or IPv6 address element. -/
def hostHasAddress (h : HostElem) : Bool :=
  h.addresses.any (fun a => a.addrtype == "ipv4" || a.addrtype == "ipv6")

/-- Claim-side view of one retained port (claim C6 wording): a port whose
state is `"open"`, carried over with its service and scripts. -/
def specPortView (p : PortElem) : PortData :=
  { port := p.portid
    protocol := p.protocol
    state := "open"
    service := p.service.map (fun s =>
      { name := s.name.getD "unknown"
        product := s.product
        version := s.version
        extrainfo := s.extrainfo })
    scripts := p.scripts }

/-- Claim-side view of one retained host (claim C6 wording): exactly the
ports whose state is `"open"`, and the OS guess is the top (first)
OS-match element when one is present. -/
def specHostView (h : HostElem) : HostData :=
  { ip := ((findAddr h).map (·.addr)).getD ""
    hostname := (h.hostnames.find? (fun hn => hn.type == "user")).map (·.name)
    ports := (h.ports.filter (fun p => p.state == some "open")).map specPortView
    os := h.osmatches.head?.map (fun o => { name := o.name, accuracy := o.accuracy })
    state := "up" }

end NmapScanner

theorem filterMap_parse_port (ps : List PortElem) :
    ps.filterMap NmapScanner.parse_port
      = (ps.filter (fun p => p.state == some "open")).map NmapScanner.specPortView := by
  induction ps with
  | nil => rfl
  | cons p t ih =>
    simp only [List.filterMap_cons, List.filter_cons]
    cases hst : p.state with
    | none => simp [NmapScanner.parse_port, hst, ih]
    | some st =>
      by_cases hopen : st = "open"
      · subst hopen
        simp [NmapScanner.parse_port, hst, ih, NmapScanner.specPortView]
      · simp [NmapScanner.parse_port, hst, hopen, ih]

theorem findAddr_none_iff (h : HostElem) :
    NmapScanner.findAddr h = none ↔ NmapScanner.hostHasAddress h = false := by
  unfold NmapScanner.findAddr NmapScanner.hostHasAddress
  cases h4 : h.addresses.find? (fun a => a.addrtype == "ipv4") with
  | some a =>
    have hm := List.mem_of_find?_eq_some h4
    have hp := List.find?_some h4
    have hany : h.addresses.any (fun a => a.addrtype == "ipv4" || a.addrtype == "ipv6") = true :=
      List.any_eq_true.mpr ⟨a, hm, by simp [hp]⟩
    simp [hany]
  | none =>
    cases h6 : h.addresses.find? (fun a => a.addrtype == "ipv6") with
    | some a =>
      have hm := List.mem_of_find?_eq_some h6
      have hp := List.find?_some h6
      have hany : h.addresses.any (fun a => a.addrtype == "ipv4" || a.addrtype == "ipv6") = true :=
        List.any_eq_true.mpr ⟨a, hm, by simp [hp]⟩
      simp [hany]
    | none =>
      have hall4 := List.find?_eq_none.mp h4
      have hall6 := List.find?_eq_none.mp h6
      have hany : h.addresses.any (fun a => a.addrtype == "ipv4" || a.addrtype == "ipv6") = false := by
        apply List.any_eq_false.mpr
        intro a ha
        simp only [Bool.or_eq_true, not_or]
        exact ⟨hall4 a ha, hall6 a ha⟩
      simp [hany]

theorem findAddr_some_mem {h : HostElem} {a : AddressElem}
    (hf : NmapScanner.findAddr h = some a) :
    a ∈ h.addresses ∧ (a.addrtype = "ipv4" ∨ a.addrtype = "ipv6") := by
  unfold NmapScanner.findAddr at hf
  cases h4 : h.addresses.find? (fun x => x.addrtype == "ipv4") with
  | some b =>
    rw [h4] at hf
    cases hf
    exact ⟨List.mem_of_find?_eq_some h4, Or.inl (by simpa using List.find?_some h4)⟩
  | none =>
    rw [h4] at hf
    exact ⟨List.mem_of_find?_eq_some hf, Or.inr (by simpa using List.find?_some hf)⟩

theorem parse_xml_parsed_eq (hosts : List HostElem) :
    NmapScanner.parse_xml (.parsed hosts)
      = (hosts.filter (fun h => h.status == "up" && NmapScanner.hostHasAddress h)).map
          NmapScanner.specHostView := by
  induction hosts with
  | nil => rfl
  | cons h t ih =>
    simp only [NmapScanner.parse_xml] at ih ⊢
    simp only [List.filter_cons]
    by_cases hup : h.status == "up"
    · rw [if_pos hup]
      simp only [List.filterMap_cons]
      cases haddr : NmapScanner.findAddr h with
      | none =>
        have hna : NmapScanner.hostHasAddress h = false := (findAddr_none_iff h).mp haddr
        simp [NmapScanner.parse_host, haddr, hup, hna, ih]
      | some a =>
        have hha : NmapScanner.hostHasAddress h = true := by
          cases hcase : NmapScanner.hostHasAddress h with
          | false => exact absurd ((findAddr_none_iff h).mpr hcase) (by simp [haddr])
          | true => rfl
        simp [NmapScanner.parse_host, haddr, hup, hha, ih,
          NmapScanner.specHostView, filterMap_parse_port]
    · rw [if_neg hup]
      simp [hup, ih]

/-- C6 counterexample: a structured report whose single host element has
status `"up"` but no address element yields an empty inventory, so the
inventory does not contain every host element whose status is `"up"`. -/
theorem c6_counterexample :
    (HostElem.mk "up" [] [] [] []).status = "up"
      ∧ NmapScanner.parse_xml (.parsed [HostElem.mk "up" [] [] [] []]) = [] :=
  ⟨rfl, rfl⟩

/-- C6 (amended): the parsed inventory contains exactly, in order, the host
elements whose status is `"up"` and which carry an IPv4 or IPv6 address
element; each retained host contains exactly its ports whose state is
`"open"`, and its OS guess is the top (first) OS-match element when one is
present. -/
theorem c6_parse_xml_inventory (hosts : List HostElem) :
    NmapScanner.parse_xml (.parsed hosts)
      = (hosts.filter (fun h => h.status == "up" && NmapScanner.hostHasAddress h)).map
          NmapScanner.specHostView :=
  parse_xml_parsed_eq hosts

/-- C7: for every missing, truncated, or otherwise malformed
structured-output file, `NmapScanner._parse_xml` returns an empty host
list instead of raising; the parse error is only printed as a warning. -/
theorem c7_parse_xml_resilient (src : XmlSource)
    (h : src = .missing ∨ ∃ m, src = .malformed m) :
    NmapScanner.parse_xml src = [] := by
  rcases h with h | ⟨m, h⟩ <;> subst h <;> rfl

/-- C7 witness: the theorem applied to a malformed (truncated) file. -/
theorem c7_witness : NmapScanner.parse_xml (.malformed "no element found") = [] :=
  c7_parse_xml_resilient _ (Or.inr ⟨"no element found", rfl⟩)

/-- C10: an "up" host element with neither an IPv4 nor an IPv6 address
element is omitted from the returned inventory entirely, and every
inventory entry draws its IP from an actual IPv4/IPv6 address element of
one of the report's host elements, so no host record with a missing IP is
ever produced. -/
theorem c10_no_address_host_omitted (pre post : List HostElem) (h : HostElem)
    (hup : h.status = "up") (hna : NmapScanner.hostHasAddress h = false) :
    NmapScanner.parse_xml (.parsed (pre ++ h :: post))
        = NmapScanner.parse_xml (.parsed (pre ++ post))
      ∧ ∀ hd ∈ NmapScanner.parse_xml (.parsed (pre ++ h :: post)),
          ∃ he ∈ pre ++ h :: post, ∃ a ∈ he.addresses,
            (a.addrtype = "ipv4" ∨ a.addrtype = "ipv6") ∧ hd.ip = a.addr := by
  constructor
  · simp [parse_xml_parsed_eq, List.filter_append, List.filter_cons, hup, hna]
  · intro hd hmem
    rw [parse_xml_parsed_eq] at hmem
    obtain ⟨he, hin, hview⟩ := List.mem_map.mp hmem
    obtain ⟨hinl, hpred⟩ := List.mem_filter.mp hin
    have hha : NmapScanner.hostHasAddress he = true := by
      simp only [Bool.and_eq_true, beq_iff_eq] at hpred
      exact hpred.2
    cases haddr : NmapScanner.findAddr he with
    | none => exact absurd ((findAddr_none_iff he).mp haddr) (by simp [hha])
    | some a =>
      obtain ⟨ham, hty⟩ := findAddr_some_mem haddr
      refine ⟨he, hinl, a, ham, hty, ?_⟩
      rw [← hview]
      simp [NmapScanner.specHostView, haddr]

/-- C10 witness: the theorem applied to a one-host report whose "up" host
has no address element. -/
theorem c10_witness :
    NmapScanner.parse_xml (.parsed ([] ++ HostElem.mk "up" [] [] [] [] :: []))
      = NmapScanner.parse_xml (.parsed ([] ++ [])) :=
  (c10_no_address_host_omitted [] [] (HostElem.mk "up" [] [] [] []) rfl rfl).1

theorem dedupeAux_sublist (l : List VulnRecord)
    (seen : List (Option String × Option String)) :
    (dedupeAux l seen).Sublist l := by
  induction l generalizing seen with
  | nil => exact List.Sublist.refl _
  | cons v rest ih =>
    simp only [dedupeAux]
    by_cases h : vulnKey v ∈ seen
    · rw [if_pos h]
      exact (ih seen).cons v
    · rw [if_neg h]
      exact (ih (vulnKey v :: seen)).cons₂ v

theorem dedupeAux_key_not_seen (l : List VulnRecord)
    (seen : List (Option String × Option String)) :
    ∀ v ∈ dedupeAux l seen, vulnKey v ∉ seen := by
  induction l generalizing seen with
  | nil => intro v hv; cases hv
  | cons u rest ih =>
    intro v hv
    simp only [dedupeAux] at hv
    by_cases h : vulnKey u ∈ seen
    · rw [if_pos h] at hv
      exact ih seen v hv
    · rw [if_neg h] at hv
      rcases List.mem_cons.mp hv with rfl | hv
      · exact h
      · intro hc
        exact ih (vulnKey u :: seen) v hv (List.mem_cons_of_mem _ hc)

theorem dedupeAux_keys_nodup (l : List VulnRecord)
    (seen : List (Option String × Option String)) :
    ((dedupeAux l seen).map vulnKey).Nodup := by
  induction l generalizing seen with
  | nil => exact List.nodup_nil
  | cons u rest ih =>
    simp only [dedupeAux]
    by_cases h : vulnKey u ∈ seen
    · rw [if_pos h]
      exact ih seen
    · rw [if_neg h]
      simp only [List.map_cons, List.nodup_cons]
      refine ⟨?_, ih (vulnKey u :: seen)⟩
      intro hc
      obtain ⟨w, hw, hkw⟩ := List.mem_map.mp hc
      exact dedupeAux_key_not_seen rest (vulnKey u :: seen) w hw (hkw ▸ List.mem_cons_self _ _)

theorem dedupeAux_complete (l : List VulnRecord)
    (seen : List (Option String × Option String)) :
    ∀ v ∈ l, vulnKey v ∉ seen → ∃ w ∈ dedupeAux l seen, vulnKey w = vulnKey v := by
  induction l generalizing seen with
  | nil => intro v hv; cases hv
  | cons u rest ih =>
    intro v hv hns
    simp only [dedupeAux]
    rcases List.mem_cons.mp hv with rfl | hv
    · rw [if_neg hns]
      exact ⟨v, List.mem_cons_self _ _, rfl⟩
    · by_cases h : vulnKey u ∈ seen
      · rw [if_pos h]
        exact ih seen v hv hns
      · rw [if_neg h]
        by_cases hk : vulnKey v = vulnKey u
        · exact ⟨u, List.mem_cons_self _ _, hk.symm⟩
        · obtain ⟨w, hw, hkw⟩ := ih (vulnKey u :: seen) v hv (by
            intro hc
            rcases List.mem_cons.mp hc with hc | hc
            · exact hk hc
            · exact hns hc)
          exact ⟨w, List.mem_cons_of_mem _ hw, hkw⟩

theorem dedupeAux_first (l : List VulnRecord)
    (seen : List (Option String × Option String)) :
    ∀ v ∈ dedupeAux l seen,
      l.find? (fun u => decide (vulnKey u = vulnKey v)) = some v := by
  induction l generalizing seen with
  | nil => intro v hv; cases hv
  | cons u rest ih =>
    intro v hv
    simp only [dedupeAux] at hv
    by_cases h : vulnKey u ∈ seen
    · rw [if_pos h] at hv
      have hvn := dedupeAux_key_not_seen rest seen v hv
      have hne : vulnKey u ≠ vulnKey v := fun hc => hvn (hc ▸ h)
      rw [List.find?_cons_of_neg _ (by simpa using hne)]
      exact ih seen v hv
    · rw [if_neg h] at hv
      rcases List.mem_cons.mp hv with rfl | hv
      · exact List.find?_cons_of_pos _ (by simp)
      · have hvn := dedupeAux_key_not_seen rest (vulnKey u :: seen) v hv
        have hne : vulnKey u ≠ vulnKey v := fun hc => hvn (hc ▸ List.mem_cons_self _ _)
        rw [List.find?_cons_of_neg _ (by simpa using hne)]
        exact ih (vulnKey u :: seen) v hv

theorem dedupeAux_fixed (l : List VulnRecord)
    (seen : List (Option String × Option String))
    (hns : ∀ v ∈ l, vulnKey v ∉ seen) (hnd : (l.map vulnKey).Nodup) :
    dedupeAux l seen = l := by
  induction l generalizing seen with
  | nil => rfl
  | cons u rest ih =>
    simp only [dedupeAux]
    rw [if_neg (hns u (List.mem_cons_self _ _))]
    simp only [List.map_cons, List.nodup_cons] at hnd
    congr 1
    refine ih (vulnKey u :: seen) ?_ hnd.2
    intro v hv hc
    rcases List.mem_cons.mp hc with hc | hc
    · exact hnd.1 (hc ▸ List.mem_map_of_mem vulnKey hv)
    · exact hns v (List.mem_cons_of_mem _ hv) hc

/-- C5: deduplication by `(cve_id, host)` keeps, for each key, exactly the
first occurrence in insertion order — the result is a subsequence of the
input with pairwise-distinct keys, covering every key of the input, in
which each kept record is the first record of the input bearing its key —
and it is idempotent. -/
theorem c5_dedupe_first_seen_idempotent (l : List VulnRecord) :
    (dedupe l).Sublist l
      ∧ ((dedupe l).map vulnKey).Nodup
      ∧ (∀ v ∈ l, ∃ w ∈ dedupe l, vulnKey w = vulnKey v)
      ∧ (∀ v ∈ dedupe l, l.find? (fun u => decide (vulnKey u = vulnKey v)) = some v)
      ∧ dedupe (dedupe l) = dedupe l := by
  refine ⟨dedupeAux_sublist l [], dedupeAux_keys_nodup l [], ?_, dedupeAux_first l [], ?_⟩
  · intro v hv
    exact dedupeAux_complete l [] v hv (by simp)
  · exact dedupeAux_fixed (dedupe l) [] (fun v _ => by simp) (dedupeAux_keys_nodup l [])

/-- A vulnerability record as first extracted from an nmap script hit (used
to instantiate the C5 theorem). -/
def c5ExampleA : VulnRecord :=
  { cve_id := some "CVE-2021-44228", host := some "10.0.0.5", source := some "nmap_script" }

/-- A later duplicate of `c5ExampleA` coming from the nikto side. -/
def c5ExampleB : VulnRecord :=
  { cve_id := some "CVE-2021-44228", host := some "10.0.0.5", source := some "nikto" }

/-- A record with a distinct key. -/
def c5ExampleC : VulnRecord :=
  { cve_id := some "CVE-2022-1234", host := some "10.0.0.5", source := some "nmap_script" }

/-- C5 witness: on a concrete list with one duplicated key, the kept record
is the first of its key, and a second deduplication changes nothing. -/
theorem c5_witness :
    List.find? (fun u => decide (vulnKey u = vulnKey c5ExampleA))
        [c5ExampleA, c5ExampleB, c5ExampleC] = some c5ExampleA
      ∧ dedupe (dedupe [c5ExampleA, c5ExampleB, c5ExampleC])
          = dedupe [c5ExampleA, c5ExampleB, c5ExampleC] :=
  ⟨(c5_dedupe_first_seen_idempotent [c5ExampleA, c5ExampleB, c5ExampleC]).2.2.2.1
      c5ExampleA (by decide),
    (c5_dedupe_first_seen_idempotent [c5ExampleA, c5ExampleB, c5ExampleC]).2.2.2.2⟩

/-- An attack chain dict as built by `AIEngine._identify_attack_chains`
(ai_engine.py lines 56-61). -/
structure AttackChain where
  type : String
  description : String
  vulnerabilities : List (Option String)
  risk : String
deriving DecidableEq

/-- A high-risk-host dict as built by `AIEngine._identify_high_risk_hosts`
(ai_engine.py lines 74-80). -/
structure HighRiskHost where
  host : String
  critical_vulns : Nat
  high_vulns : Nat
  total_vulns : Nat
  risk_assessment : String
deriving DecidableEq

/-- The dict returned by `AIEngine.correlate_vulnerabilities`. -/
structure CorrelationResult where
  attack_chains : List AttackChain
  high_risk_hosts : List HighRiskHost
deriving DecidableEq

namespace AIEngine

/-- The grouping key of `AIEngine.correlate_vulnerabilities` (line 26):
`vuln.get("host", "unknown")`. -/
def hostOf (v : VulnRecord) : String :=
  v.host.getD "unknown"

/-- The keys of the `by_host` dict in first-insertion order (Python dicts
preserve key insertion order). -/
def hostKeys (vulns : List VulnRecord) : List String :=
  vulns.foldl (fun ks v => if hostOf v ∈ ks then ks else ks ++ [hostOf v]) []

/-- The value list of the `by_host` dict for one key: the vulnerabilities
of that host in their original order. -/
def byHost (vulns : List VulnRecord) (h : String) : List VulnRecord :=
  vulns.filter (fun v => hostOf v == h)

/-- The remote-exploitable indicator of `AIEngine._identify_attack_chains`
(line 52): description contains `"remote"` (case-folded) or
`cvss_score ≥ 9.0`. -/
def isRce (v : VulnRecord) : Bool :=
  strContains (strLower (v.description.getD "")) "remote"
    || decide ((9 : ℚ) ≤ v.cvss_score.getD 0)

/-- The privilege-escalation indicator of `AIEngine._identify_attack_chains`
(line 53): description contains `"privilege"` (case-folded). -/
def isPrivesc (v : VulnRecord) : Bool :=
  strContains (strLower (v.description.getD "")) "privilege"

/-- `AIEngine._identify_attack_chains` (ai_engine.py lines 46-63): when the
remote-exploitable and privilege-escalation filters are both non-empty,
one `rce_to_privesc` chain referencing the first match of each. -/
def identify_attack_chains (vulns : List VulnRecord) : List AttackChain :=
  match vulns.filter isRce, vulns.filter isPrivesc with
  | r :: _, p :: _ =>
    [{ type := "rce_to_privesc"
       description := "Remote Code Execution can be chained with Privilege Escalation"
       vulnerabilities := [r.cve_id, p.cve_id]
       risk := "critical" }]
  | _, _ => []

/-- `AIEngine._identify_high_risk_hosts` (ai_engine.py lines 65-82). -/
def identify_high_risk_hosts (vulns : List VulnRecord) : List HighRiskHost :=
  (hostKeys vulns).filterMap (fun h =>
    let hv := byHost vulns h
    let critical_count := (hv.filter (fun v => v.risk_level == some "critical")).length
    let high_count := (hv.filter (fun v => v.risk_level == some "high")).length
    if 2 ≤ critical_count ∨ (1 ≤ critical_count ∧ 2 ≤ high_count) then
      some
        { host := h
          critical_vulns := critical_count
          high_vulns := high_count
          total_vulns := hv.length
          risk_assessment := "Multiple critical vulnerabilities create high risk of compromise" }
    else none)

/-- The per-host contribution of the loop in
`AIEngine.correlate_vulnerabilities` (lines 34-39): chains are only sought
for hosts holding at least two vulnerabilities. -/
def hostChains (g : List VulnRecord) : List AttackChain :=
  if 2 ≤ g.length then identify_attack_chains g else []

/-- `AIEngine.correlate_vulnerabilities` (ai_engine.py lines 17-44): group
by host in insertion order, collect chains per host, and flag high-risk
hosts. -/
def correlate_vulnerabilities (vulns : List VulnRecord) : CorrelationResult :=
  { attack_chains := (hostKeys vulns).flatMap (fun h => hostChains (byHost vulns h))
    high_risk_hosts := identify_high_risk_hosts vulns }

end AIEngine

theorem find?_eq_head_filter {α : Type} (p : α → Bool) (l : List α) :
    l.find? p = (l.filter p).head? := by
  induction l with
  | nil => rfl
  | cons a t ih =>
    by_cases h : p a
    · rw [List.find?_cons_of_pos _ h, List.filter_cons, if_pos h, List.head?_cons]
    · rw [List.find?_cons_of_neg _ h, List.filter_cons, if_neg h, ih]

theorem iac_of_rce_nil {vulns : List VulnRecord}
    (h : vulns.filter AIEngine.isRce = []) :
    AIEngine.identify_attack_chains vulns = [] := by
  unfold AIEngine.identify_attack_chains
  rw [h]

theorem iac_of_pe_nil {vulns : List VulnRecord}
    (h : vulns.filter AIEngine.isPrivesc = []) :
    AIEngine.identify_attack_chains vulns = [] := by
  unfold AIEngine.identify_attack_chains
  rw [h]
  cases vulns.filter AIEngine.isRce <;> rfl

theorem iac_of_cons {vulns : List VulnRecord} {r p : VulnRecord}
    {rt pt : List VulnRecord}
    (hr : vulns.filter AIEngine.isRce = r :: rt)
    (hp : vulns.filter AIEngine.isPrivesc = p :: pt) :
    AIEngine.identify_attack_chains vulns
      = [{ type := "rce_to_privesc"
           description := "Remote Code Execution can be chained with Privilege Escalation"
           vulnerabilities := [r.cve_id, p.cve_id]
           risk := "critical" }] := by
  unfold AIEngine.identify_attack_chains
  rw [hr, hp]

/-- C3 counterexample: a host whose single vulnerability matches both the
remote-exploitable and the privilege-escalation indicator satisfies the
claim's condition, yet no chain is emitted, because
`correlate_vulnerabilities` only searches for chains on hosts holding at
least two vulnerabilities. -/
theorem c3_counterexample :
    AIEngine.isRce
        { cve_id := some "CVE-2024-0001", host := some "10.0.0.9",
          description := some "Remote privilege escalation in service" } = true
      ∧ AIEngine.isPrivesc
          { cve_id := some "CVE-2024-0001", host := some "10.0.0.9",
            description := some "Remote privilege escalation in service" } = true
      ∧ (AIEngine.correlate_vulnerabilities
            [{ cve_id := some "CVE-2024-0001", host := some "10.0.0.9",
               description := some "Remote privilege escalation in service" }]).attack_chains
          = [] :=
  ⟨by decide, by decide, by decide⟩

/-- C3 (amended): per host, an `rce_to_privesc` chain with risk `critical`,
referencing the first matching vulnerability of each indicator, is emitted
if and only if the host's list holds at least two vulnerabilities, at
least one matching the remote-exploitable indicator and at least one
matching the privilege-escalation indicator; at most one such chain is
emitted per host.  In particular a host with exactly one vulnerability of
each kind (two vulnerabilities) yields exactly one chain, and a host with
neither or only one kind yields zero. -/
theorem c3_attack_chain_iff (vulns : List VulnRecord) (h : String) :
    (AIEngine.correlate_vulnerabilities vulns).attack_chains
        = (AIEngine.hostKeys vulns).flatMap
            (fun k => AIEngine.hostChains (AIEngine.byHost vulns k))
      ∧ (AIEngine.hostChains (AIEngine.byHost vulns h)).length ≤ 1
      ∧ (AIEngine.hostChains (AIEngine.byHost vulns h) ≠ []
          ↔ 2 ≤ (AIEngine.byHost vulns h).length
              ∧ (∃ v ∈ AIEngine.byHost vulns h, AIEngine.isRce v)
              ∧ (∃ v ∈ AIEngine.byHost vulns h, AIEngine.isPrivesc v))
      ∧ ∀ c ∈ AIEngine.hostChains (AIEngine.byHost vulns h),
          ∃ r p, (AIEngine.byHost vulns h).find? AIEngine.isRce = some r
            ∧ (AIEngine.byHost vulns h).find? AIEngine.isPrivesc = some p
            ∧ c = { type := "rce_to_privesc"
                    description := "Remote Code Execution can be chained with Privilege Escalation"
                    vulnerabilities := [r.cve_id, p.cve_id]
                    risk := "critical" } := by
  refine ⟨rfl, ?_, ?_, ?_⟩
  · unfold AIEngine.hostChains
    by_cases hlen : 2 ≤ (AIEngine.byHost vulns h).length
    · rw [if_pos hlen]
      cases hfr : (AIEngine.byHost vulns h).filter AIEngine.isRce with
      | nil => rw [iac_of_rce_nil hfr]; simp
      | cons r rt =>
        cases hfp : (AIEngine.byHost vulns h).filter AIEngine.isPrivesc with
        | nil => rw [iac_of_pe_nil hfp]; simp
        | cons p pt => rw [iac_of_cons hfr hfp]; simp
    · rw [if_neg hlen]
      simp
  · unfold AIEngine.hostChains
    by_cases hlen : 2 ≤ (AIEngine.byHost vulns h).length
    · rw [if_pos hlen]
      cases hfr : (AIEngine.byHost vulns h).filter AIEngine.isRce with
      | nil =>
        rw [iac_of_rce_nil hfr]
        have hall := List.filter_eq_nil_iff.mp hfr
        simp only [ne_eq, not_true_eq_false, false_iff, not_and]
        intro _ hr
        obtain ⟨v, hv, hrv⟩ := hr
        exact absurd hrv (by simpa using hall v hv)
      | cons r rt =>
        cases hfp : (AIEngine.byHost vulns h).filter AIEngine.isPrivesc with
        | nil =>
          rw [iac_of_pe_nil hfp]
          have hall := List.filter_eq_nil_iff.mp hfp
          simp only [ne_eq, not_true_eq_false, false_iff, not_and]
          intro _ _ hp
          obtain ⟨v, hv, hpv⟩ := hp
          exact absurd hpv (by simpa using hall v hv)
        | cons p pt =>
          rw [iac_of_cons hfr hfp]
          have hr : r ∈ (AIEngine.byHost vulns h).filter AIEngine.isRce := by
            rw [hfr]; exact List.mem_cons_self _ _
          have hp : p ∈ (AIEngine.byHost vulns h).filter AIEngine.isPrivesc := by
            rw [hfp]; exact List.mem_cons_self _ _
          obtain ⟨hrm, hrb⟩ := List.mem_filter.mp hr
          obtain ⟨hpm, hpb⟩ := List.mem_filter.mp hp
          exact ⟨fun _ => ⟨hlen, ⟨r, hrm, hrb⟩, ⟨p, hpm, hpb⟩⟩, fun _ => by simp⟩
    · rw [if_neg hlen]
      simp only [ne_eq, not_true_eq_false, false_iff, not_and]
      intro hc
      exact absurd hc hlen
  · intro c hc
    unfold AIEngine.hostChains at hc
    by_cases hlen : 2 ≤ (AIEngine.byHost vulns h).length
    · rw [if_pos hlen] at hc
      cases hfr : (AIEngine.byHost vulns h).filter AIEngine.isRce with
      | nil => rw [iac_of_rce_nil hfr] at hc; cases hc
      | cons r rt =>
        cases hfp : (AIEngine.byHost vulns h).filter AIEngine.isPrivesc with
        | nil => rw [iac_of_pe_nil hfp] at hc; cases hc
        | cons p pt =>
          rw [iac_of_cons hfr hfp] at hc
          rcases List.mem_singleton.mp hc with rfl
          refine ⟨r, p, ?_, ?_, rfl⟩
          · rw [find?_eq_head_filter, hfr]; rfl
          · rw [find?_eq_head_filter, hfp]; rfl
    · rw [if_neg hlen] at hc
      cases hc

/-- Modelled from the spec: the factor inputs of the priority formula of
`VulnerabilityEngine` (`nmapai/core/vulnerability_engine.py` is imported
by `scanner_manager.py` but missing from the repository files, so the
scoring is modelled from spec §4.4).  A missing factor contributes 0. -/
structure ScoreInput where
  cvss : Option ℚ := none
  epss : Option ℚ := none
  exploit_available : Option Bool := none
  service_exposure : Option ℚ := none
  age_factor : Option ℚ := none
deriving DecidableEq

namespace VulnerabilityEngine

/-- Clipping to the unit interval, as in the spec's `clip(x, 0, 1)`. -/
def clip01 (x : ℚ) : ℚ :=
  max 0 (min 1 x)

/-- Modelled from the spec: §4.4 Scoring of the missing
`vulnerability_engine.py` — `priorityScore = 100 × clip(w1·(cvss/10) +
w2·epss + w3·exploitAvailable + w4·serviceExposure + w5·ageFactor, 0, 1)`
with weights `0.35, 0.25, 0.20, 0.10, 0.10`; a missing factor
contributes 0. -/
def priority_score (f : ScoreInput) : ℚ :=
  100 * clip01 ((35 : ℚ)/100 * (f.cvss.getD 0 / 10)
    + (25 : ℚ)/100 * f.epss.getD 0
    + (20 : ℚ)/100 * (if f.exploit_available.getD false then 1 else 0)
    + (10 : ℚ)/100 * f.service_exposure.getD 0
    + (10 : ℚ)/100 * f.age_factor.getD 0)

/-- Modelled from the spec: §4.4 Scoring of the missing
`vulnerability_engine.py` — riskLevel buckets: score≥90 → critical,
≥70 → high, ≥40 → medium, else low. -/
def risk_level_of (s : ℚ) : String :=
  if 90 ≤ s then "critical"
  else if 70 ≤ s then "high"
  else if 40 ≤ s then "medium"
  else "low"

/-- Modelled from the spec: the scoring phase
(`VulnerabilityEngine.analyze_vulnerabilities`, called at
scanner_manager.py line 95) maps each enriched vulnerability to a scored
one carrying `priority_score` and `risk_level`; the exploit / exposure /
age factors come from enrichment data whose derivation the spec leaves to
the missing module, so only the cvss and epss factors are drawn from the
record. -/
def analyze_vulnerabilities (vulns : List VulnRecord) : List VulnRecord :=
  vulns.map (fun v =>
    let f : ScoreInput := { cvss := v.cvss_score, epss := v.epss_score }
    { v with
        priority_score := some (priority_score f)
        risk_level := some (risk_level_of (priority_score f)) })

end VulnerabilityEngine

theorem clip01_nonneg (x : ℚ) : 0 ≤ VulnerabilityEngine.clip01 x :=
  le_max_left 0 (min 1 x)

theorem clip01_le_one (x : ℚ) : VulnerabilityEngine.clip01 x ≤ 1 :=
  max_le (by norm_num) (min_le_left 1 x)

theorem priority_score_bounds (f : ScoreInput) :
    0 ≤ VulnerabilityEngine.priority_score f
      ∧ VulnerabilityEngine.priority_score f ≤ 100 := by
  unfold VulnerabilityEngine.priority_score
  constructor
  · have := clip01_nonneg ((35 : ℚ)/100 * (f.cvss.getD 0 / 10)
      + (25 : ℚ)/100 * f.epss.getD 0
      + (20 : ℚ)/100 * (if f.exploit_available.getD false then 1 else 0)
      + (10 : ℚ)/100 * f.service_exposure.getD 0
      + (10 : ℚ)/100 * f.age_factor.getD 0)
    linarith
  · have := clip01_le_one ((35 : ℚ)/100 * (f.cvss.getD 0 / 10)
      + (25 : ℚ)/100 * f.epss.getD 0
      + (20 : ℚ)/100 * (if f.exploit_available.getD false then 1 else 0)
      + (10 : ℚ)/100 * f.service_exposure.getD 0
      + (10 : ℚ)/100 * f.age_factor.getD 0)
    linarith

theorem risk_level_of_buckets (s : ℚ) :
    (VulnerabilityEngine.risk_level_of s = "critical" ↔ 90 ≤ s)
      ∧ (VulnerabilityEngine.risk_level_of s = "high" ↔ 70 ≤ s ∧ s < 90)
      ∧ (VulnerabilityEngine.risk_level_of s = "medium" ↔ 40 ≤ s ∧ s < 70)
      ∧ (VulnerabilityEngine.risk_level_of s = "low" ↔ s < 40) := by
  unfold VulnerabilityEngine.risk_level_of
  split_ifs with h1 h2 h3
  · refine ⟨by simp [h1], ?_, ?_, ?_⟩
    · constructor
      · intro hc; exact absurd hc (by decide)
      · rintro ⟨_, hlt⟩; exact absurd h1 (not_le.mpr hlt)
    · constructor
      · intro hc; exact absurd hc (by decide)
      · rintro ⟨_, hlt⟩; exact absurd h1 (not_le.mpr (by linarith))
    · constructor
      · intro hc; exact absurd hc (by decide)
      · intro hlt; exact absurd h1 (not_le.mpr (by linarith))
  · refine ⟨?_, by simp [h2, lt_of_not_ge h1], ?_, ?_⟩
    · constructor
      · intro hc; exact absurd hc (by decide)
      · intro hge; exact absurd hge h1
    · constructor
      · intro hc; exact absurd hc (by decide)
      · rintro ⟨_, hlt⟩; exact absurd h2 (not_le.mpr hlt)
    · constructor
      · intro hc; exact absurd hc (by decide)
      · intro hlt; exact absurd h2 (not_le.mpr (by linarith))
  · refine ⟨?_, ?_, by simp [h3, lt_of_not_ge h2], ?_⟩
    · constructor
      · intro hc; exact absurd hc (by decide)
      · intro hge; exact absurd hge h1
    · constructor
      · intro hc; exact absurd hc (by decide)
      · rintro ⟨hge, _⟩; exact absurd hge h2
    · constructor
      · intro hc; exact absurd hc (by decide)
      · intro hlt; exact absurd h3 (not_le.mpr hlt)
  · refine ⟨?_, ?_, ?_, by simp [lt_of_not_ge h3]⟩
    · constructor
      · intro hc; exact absurd hc (by decide)
      · intro hge; exact absurd hge h1
    · constructor
      · intro hc; exact absurd hc (by decide)
      · rintro ⟨hge, _⟩; exact absurd hge h2
    · constructor
      · intro hc; exact absurd hc (by decide)
      · rintro ⟨hge, _⟩; exact absurd hge h3

/-- C2: the priority score is `100 × clip(0.35·(cvss/10) + 0.25·epss +
0.20·exploitAvailable + 0.10·serviceExposure + 0.10·ageFactor, 0, 1)`
with a missing factor contributing 0, hence always within `[0, 100]`, and
the risk level matches the bucket boundaries exactly at 90/70/40. -/
theorem c2_priority_score_bounds_and_buckets (f : ScoreInput) :
    VulnerabilityEngine.priority_score f
        = 100 * VulnerabilityEngine.clip01 ((35 : ℚ)/100 * (f.cvss.getD 0 / 10)
            + (25 : ℚ)/100 * f.epss.getD 0
            + (20 : ℚ)/100 * (if f.exploit_available.getD false then 1 else 0)
            + (10 : ℚ)/100 * f.service_exposure.getD 0
            + (10 : ℚ)/100 * f.age_factor.getD 0)
      ∧ (0 ≤ VulnerabilityEngine.priority_score f
          ∧ VulnerabilityEngine.priority_score f ≤ 100)
      ∧ (VulnerabilityEngine.risk_level_of (VulnerabilityEngine.priority_score f) = "critical"
          ↔ 90 ≤ VulnerabilityEngine.priority_score f)
      ∧ (VulnerabilityEngine.risk_level_of (VulnerabilityEngine.priority_score f) = "high"
          ↔ 70 ≤ VulnerabilityEngine.priority_score f
              ∧ VulnerabilityEngine.priority_score f < 90)
      ∧ (VulnerabilityEngine.risk_level_of (VulnerabilityEngine.priority_score f) = "medium"
          ↔ 40 ≤ VulnerabilityEngine.priority_score f
              ∧ VulnerabilityEngine.priority_score f < 70)
      ∧ (VulnerabilityEngine.risk_level_of (VulnerabilityEngine.priority_score f) = "low"
          ↔ VulnerabilityEngine.priority_score f < 40)
      ∧ ∀ (vulns : List VulnRecord),
          ∀ v ∈ VulnerabilityEngine.analyze_vulnerabilities vulns,
            ∃ s, v.priority_score = some s
              ∧ v.risk_level = some (VulnerabilityEngine.risk_level_of s)
              ∧ 0 ≤ s ∧ s ≤ 100 := by
  obtain ⟨b1, b2, b3, b4⟩ := risk_level_of_buckets (VulnerabilityEngine.priority_score f)
  refine ⟨rfl, priority_score_bounds f, b1, b2, b3, b4, ?_⟩
  intro vulns v hv
  obtain ⟨u, _, rfl⟩ := List.mem_map.mp hv
  exact ⟨VulnerabilityEngine.priority_score { cvss := u.cvss_score, epss := u.epss_score },
    rfl, rfl, priority_score_bounds _⟩

/-- Maximal factor input for instantiating the C2 theorem. -/
def c2Example : ScoreInput :=
  { cvss := some 10, epss := some 1, exploit_available := some true,
    service_exposure := some 1, age_factor := some 1 }

/-- C2 witness: the theorem applied to the maximal factor input (score
exactly 100, bucket `critical`). -/
theorem c2_witness :
    VulnerabilityEngine.priority_score c2Example = 100
      ∧ VulnerabilityEngine.risk_level_of
          (VulnerabilityEngine.priority_score c2Example) = "critical" := by
  have hscore : VulnerabilityEngine.priority_score c2Example = 100 := by
    simp only [VulnerabilityEngine.priority_score, VulnerabilityEngine.clip01,
      c2Example, Option.getD_some, if_pos]
    norm_num
  exact ⟨hscore,
    (c2_priority_score_bounds_and_buckets c2Example).2.2.1.mpr (by rw [hscore]; norm_num)⟩

/-- A web-target dict as built by `NiktoScanner._extract_web_targets`
(nikto_scanner.py lines 97-102); `host` mirrors `host.get("ip")`. -/
structure WebTarget where
  host : Option String := none
  port : String
  scheme : String
  url : String
deriving DecidableEq

/-- A finding dict as built by `NiktoScanner._parse_nikto_output`
(lines 224-228). -/
structure NiktoFinding where
  type : String
  description : String
  severity : String
deriving DecidableEq

/-- Outcome of the external-process interaction inside `_scan_single`'s
`try` block: either the nikto process ran to completion and produced this
stdout (whatever its exit code), or spawning/communicating raised — e.g.
`FileNotFoundError` when the tool is not installed. -/
inductive ProcOutcome where
  | ran (stdout : String)
  | raised (msg : String)
deriving DecidableEq

/-- A per-target result dict of `NiktoScanner._scan_single`: the success
shape (lines 177-184, `error` absent) or the caught-exception shape
(lines 196-200, empty findings).  The output-file paths are not
modelled. -/
structure ScanEntry where
  target : WebTarget
  findings : List NiktoFinding
  error : Option String := none
deriving DecidableEq

/-- The aggregate dict returned by `NiktoScanner.scan` (lines 131-136). -/
structure ScanAggregate where
  scans : List ScanEntry
  total : Nat
  successful : Nat
  failed : Nat
deriving DecidableEq

namespace NiktoScanner

/-- One attempt of the pattern `\+\s+([^:]+):\s+(.+)` just after a literal
`+`.  The regex needs at least one whitespace character and at least one
further pre-colon character (`[^:]+` cannot cross a colon, and greedy
`\s+` backtracks down to one character), the first colon, then at least
one whitespace character and at least one further character.  Both groups
are stripped by the caller, which collapses all greedy/backtracking
choices into trimming the pre-colon segment and the post-colon
remainder. -/
def matchAfterPlus (rest : List Char) : Option (String × String) :=
  let before := rest.takeWhile (fun c => c ≠ ':')
  match rest.dropWhile (fun c => c ≠ ':') with
  | [] => none
  | _ :: after =>
    if 2 ≤ before.length ∧ pyWs (before.headD 'x')
        ∧ 2 ≤ after.length ∧ pyWs (after.headD 'x') then
      some (strStrip ⟨before⟩, strStrip ⟨after⟩)
    else none

/-- `vuln_pattern.search(line)` (line 210): leftmost match of
`\+\s+([^:]+):\s+(.+)`, with both groups stripped. -/
def searchVulnPattern : List Char → Option (String × String)
  | [] => none
  | '+' :: rest =>
    match matchAfterPlus rest with
    | some td => some td
    | none => searchVulnPattern rest
  | _ :: rest => searchVulnPattern rest

/-- The keyword heuristic of `NiktoScanner._parse_nikto_output`
(lines 215-222). -/
def assessSeverity (description : String) : String :=
  if ["critical", "dangerous", "exploit"].any
      (fun k => strContains (strLower description) k) then "high"
  else if ["vulnerable", "security", "risk"].any
      (fun k => strContains (strLower description) k) then "medium"
  else if ["warning", "outdated"].any
      (fun k => strContains (strLower description) k) then "low"
  else "info"

/-- `NiktoScanner._parse_nikto_output` (lines 202-230): split the output
on newlines, search each line for the finding pattern, and classify the
severity of each match. -/
def parse_nikto_output (output : String) : List NiktoFinding :=
  (splitChar '\n' output).filterMap (fun line =>
    (searchVulnPattern line.data).map (fun td =>
      { type := td.1, description := td.2, severity := assessSeverity td.2 }))

/-- `NiktoScanner._scan_single` (lines 138-200): the whole process
interaction sits inside a `try` block, so a raising spawn/communicate
(tool not found, I/O failure) is caught and recorded as a per-target
error dict with empty findings — the coroutine itself never raises. -/
def scan_single (target : WebTarget) (proc : ProcOutcome) : ScanEntry :=
  match proc with
  | .ran out => { target := target, findings := parse_nikto_output out }
  | .raised msg => { target := target, findings := [], error := some msg }

/-- `NiktoScanner.scan` (lines 115-136): fan `_scan_single` out over the
targets (one process outcome per target) and gather with
`return_exceptions=True`, which wraps a task's raised exception as a
value; since `_scan_single` catches its own errors, every gathered value
is a plain result dict.  The gathered values are then partitioned by
`isinstance(r, Exception)`. -/
def scan (targets : List WebTarget) (procs : List ProcOutcome) : ScanAggregate :=
  let scan_results : List (Except String ScanEntry) :=
    (targets.zip procs).map (fun tp => Except.ok (scan_single tp.1 tp.2))
  let successful_scans := scan_results.filterMap (fun r =>
    match r with
    | .ok entry => some entry
    | .error _ => none)
  let failed_scans := scan_results.filter (fun r =>
    match r with
    | .ok _ => false
    | .error _ => true)
  { scans := successful_scans
    total := targets.length
    successful := successful_scans.length
    failed := failed_scans.length }

end NiktoScanner

/-- A web target for the C4 theorems. -/
def c4TargetA : WebTarget :=
  { host := some "10.0.0.5", port := "80", scheme := "http", url := "http://10.0.0.5:80" }

/-- A second web target, whose worker's process will fail. -/
def c4TargetB : WebTarget :=
  { host := some "10.0.0.6", port := "80", scheme := "http", url := "http://10.0.0.6:80" }

/-- C4 counterexample: with two targets of which exactly one worker's
external process fails (tool not found), the sibling worker completes
with its findings intact and the failing target is recorded as a
per-target error entry with empty findings — but that error entry still
counts as successful, so the aggregate reports `successful = 2` and
`failed = 0`, not `succeeded = 1, failed = 1` as the claim states. -/
theorem c4_counterexample :
    (NiktoScanner.scan [c4TargetA, c4TargetB]
        [.ran "+ Server: Apache 1.3.27, this version is outdated",
          .raised "nikto: command not found"]).total = 2
      ∧ (NiktoScanner.scan [c4TargetA, c4TargetB]
          [.ran "+ Server: Apache 1.3.27, this version is outdated",
            .raised "nikto: command not found"]).successful = 2
      ∧ (NiktoScanner.scan [c4TargetA, c4TargetB]
          [.ran "+ Server: Apache 1.3.27, this version is outdated",
            .raised "nikto: command not found"]).failed = 0
      ∧ ((NiktoScanner.scan [c4TargetA, c4TargetB]
          [.ran "+ Server: Apache 1.3.27, this version is outdated",
            .raised "nikto: command not found"]).scans.map ScanEntry.error)
          = [none, some "nikto: command not found"]
      ∧ ((NiktoScanner.scan [c4TargetA, c4TargetB]
          [.ran "+ Server: Apache 1.3.27, this version is outdated",
            .raised "nikto: command not found"]).scans.map
              (fun e => e.findings.length)) = [1, 0] := by
  refine ⟨rfl, rfl, rfl, rfl, ?_⟩
  decide

theorem scan_results_filterMap (l : List (WebTarget × ProcOutcome)) :
    ((l.map (fun tp =>
        (Except.ok (NiktoScanner.scan_single tp.1 tp.2) : Except String ScanEntry))).filterMap
      (fun r =>
        match r with
        | .ok entry => some entry
        | .error _ => none))
      = l.map (fun tp => NiktoScanner.scan_single tp.1 tp.2) := by
  induction l with
  | nil => rfl
  | cons a t ih => simp [List.filterMap_cons, ih]

theorem scan_results_filter_err (l : List (WebTarget × ProcOutcome)) :
    ((l.map (fun tp =>
        (Except.ok (NiktoScanner.scan_single tp.1 tp.2) : Except String ScanEntry))).filter
      (fun r =>
        match r with
        | .ok _ => false
        | .error _ => true))
      = [] := by
  induction l with
  | nil => rfl
  | cons a t ih => simp [List.filter_cons, ih]

/-- C4 (amended): in every secondary-scan fan-out, each worker's entry is
exactly what `_scan_single` computes from that worker's own target and
process outcome, so one worker's process failure (tool not found) leaves
every sibling's findings unchanged and is recorded as a per-target error
entry with empty findings; however, because `_scan_single` catches the
failure itself and `failed` only counts exceptions that escape a worker,
the aggregate reports `total = n`, `succeeded = n` and `failed = 0`. -/
theorem c4_fanout_isolation (targets : List WebTarget) (procs : List ProcOutcome)
    (h : procs.length = targets.length) :
    (NiktoScanner.scan targets procs).total = targets.length
      ∧ (NiktoScanner.scan targets procs).successful = targets.length
      ∧ (NiktoScanner.scan targets procs).failed = 0
      ∧ (NiktoScanner.scan targets procs).scans
          = (targets.zip procs).map (fun tp => NiktoScanner.scan_single tp.1 tp.2) := by
  simp only [NiktoScanner.scan]
  rw [scan_results_filterMap, scan_results_filter_err]
  refine ⟨?_, ?_, ?_, ?_⟩ <;>
    first
      | trivial
      | rw [List.length_map, List.length_zip, h, Nat.min_self]

/-- C4 witness: the theorem applied to a single-target fan-out whose
process runs. -/
theorem c4_witness :
    (NiktoScanner.scan [c4TargetA] [.ran ""]).total = 1
      ∧ (NiktoScanner.scan [c4TargetA] [.ran ""]).successful = 1
      ∧ (NiktoScanner.scan [c4TargetA] [.ran ""]).failed = 0 :=
  ⟨(c4_fanout_isolation [c4TargetA] [.ran ""] rfl).1,
    (c4_fanout_isolation [c4TargetA] [.ran ""] rfl).2.1,
    (c4_fanout_isolation [c4TargetA] [.ran ""] rfl).2.2.1⟩

/-- A remote-exploitable vulnerability (used to instantiate the C3
theorem). -/
def c3RceVuln : VulnRecord :=
  { cve_id := some "CVE-2024-1111", host := some "h1",
    description := some "remote code execution in httpd" }

/-- A privilege-escalation vulnerability on the same host. -/
def c3PrivescVuln : VulnRecord :=
  { cve_id := some "CVE-2024-2222", host := some "h1",
    description := some "local privilege escalation" }

/-- C3 witness: a host with exactly one vulnerability of each kind yields
a chain (non-empty, and at most one). -/
theorem c3_witness :
    AIEngine.hostChains (AIEngine.byHost [c3RceVuln, c3PrivescVuln] "h1") ≠ []
      ∧ (AIEngine.hostChains (AIEngine.byHost [c3RceVuln, c3PrivescVuln] "h1")).length ≤ 1 :=
  ⟨(c3_attack_chain_iff [c3RceVuln, c3PrivescVuln] "h1").2.2.1.mpr
      ⟨by decide, by decide, by decide⟩,
    (c3_attack_chain_iff [c3RceVuln, c3PrivescVuln] "h1").2.1⟩

/-- A summary row `(host, port, proto, service)` as collected by
`summarize_gnmap` (nmapai.py line 238). -/
abbrev SummaryRow := String × String × String × String

/-- Strict code-point lexicographic comparison of character lists: how
Python compares two strings. -/
def charListLt : List Char → List Char → Bool
  | [], [] => false
  | [], _ :: _ => true
  | _ :: _, [] => false
  | a :: as, b :: bs =>
    if a < b then true
    else if b < a then false
    else charListLt as bs

/-- Strict lexicographic order on rows: how Python's `sorted` compares
4-tuples of strings. -/
def rowLt (a b : SummaryRow) : Bool :=
  charListLt a.1.data b.1.data
    || (a.1 == b.1 && (charListLt a.2.1.data b.2.1.data
    || (a.2.1 == b.2.1 && (charListLt a.2.2.1.data b.2.2.1.data
    || (a.2.2.1 == b.2.2.1 && charListLt a.2.2.2.data b.2.2.2.data)))))

/-- Reflexive closure of `rowLt`, for sorting. -/
def rowLe (a b : SummaryRow) : Bool :=
  rowLt a b || a == b

/-- Ordered insertion for `sortRows`. -/
def insertRow (r : SummaryRow) : List SummaryRow → List SummaryRow
  | [] => [r]
  | x :: xs => if rowLe r x then r :: x :: xs else x :: insertRow r xs

/-- Insertion sort by `rowLe`: on the duplicate-free lists it is applied
to, it produces the unique `rowLt`-sorted arrangement, which is what
Python's `sorted` returns on a set of tuples. -/
def sortRows : List SummaryRow → List SummaryRow
  | [] => []
  | r :: rs => insertRow r (sortRows rs)

/-- Python `sorted(set(rows))` (nmapai.py line 258): duplicates removed,
then sorted in tuple-lexicographic order. -/
def sortedSet (rows : List SummaryRow) : List SummaryRow :=
  sortRows rows.dedup

namespace Cli

/-- The suffix after the last occurrence of `pat` in the list, or `none`
when `pat` (taken non-empty) does not occur. -/
def afterLast (pat : List Char) : List Char → Option (List Char)
  | [] => none
  | c :: rest =>
    match afterLast pat rest with
    | some r => some r
    | none =>
      if pat.isPrefixOf (c :: rest) then some ((c :: rest).drop pat.length)
      else none

/-- `re.sub(r"^.*Ports:\s*", "", parts)` (nmapai.py line 244): the greedy
`.*` runs to the last occurrence of `Ports:`, greedy `\s*` then consumes
the whitespace after it, and the match is replaced by the empty string;
when `Ports:` does not occur the string is returned unchanged. -/
def portsSub (parts : String) : String :=
  match afterLast "Ports:".data parts.data with
  | none => parts
  | some tail => ⟨tail.dropWhile pyWs⟩

/-- The per-line row extraction of `summarize_gnmap` (nmapai.py lines
240-255): on a line containing both `Host: ` and `Ports: `, the host is
the second whitespace-separated token, the port list is everything after
`Ports:`, and each comma-separated segment containing `open` with at
least five `/`-fields and field 1 equal to `open` contributes the row
`(host, field 0, field 2, field 4 or "-")`. -/
def gnmapLineRows (line : String) : List SummaryRow :=
  if strContains line "Host: " && strContains line "Ports: " then
    let parts := strStrip line
    match (splitWs parts)[1]? with
    | none => []
    | some host =>
      (splitChar ',' (portsSub parts)).filterMap (fun rawSeg =>
        let seg := strStrip rawSeg
        if strContains seg "open" then
          let bits := splitChar '/' seg
          if 5 ≤ bits.length then
            let state := bits.getD 1 ""
            if state = "open" then
              some (host, bits.getD 0 "", bits.getD 2 "",
                if bits.getD 4 "" = "" then "-" else bits.getD 4 "")
            else none
          else none
        else none)
  else []

/-- The greppable output file as `summarize_gnmap` sees it: absent or
empty (no rows are computed, nmapai.py line 235), or its lines. -/
inductive GnmapSource where
  | absent
  | lines (ls : List String)

/-- `summarize_gnmap` (nmapai.py lines 230-293), restricted to the summary
rows it computes and writes to the CSV/JSON/Markdown files: collect the
rows of every line, then `sorted(set(rows))`. -/
def summarize_gnmap : GnmapSource → List SummaryRow
  | .absent => []
  | .lines ls => sortedSet (ls.flatMap gnmapLineRows)

end Cli

/-- C9: the single greppable line
`Host: 10.0.0.5 () Status: Up Ports: 80/open/tcp//http///, 22/closed/tcp//ssh///`
yields exactly one summary row `(10.0.0.5, 80, tcp, http)`; the closed
port contributes no row. -/
theorem c9_gnmap_single_line :
    Cli.summarize_gnmap (.lines
        ["Host: 10.0.0.5 () Status: Up Ports: 80/open/tcp//http///, 22/closed/tcp//ssh///"])
      = [("10.0.0.5", "80", "tcp", "http")] := by
  decide

/-- The phase of one fan-out task of `NiktoScanner.scan`: `pending` before
`async with sem` grants entry (nikto_scanner.py line 147), `running`
while the worker holds a semaphore permit and drives its external process
(lines 148-200), `done` once the `async with` block has released the
permit. -/
inductive TaskPhase where
  | pending
  | running
  | done
deriving DecidableEq

/-- A scheduler state of the secondary-scan fan-out: the phase of each of
the `len(targets)` tasks, and the number of permits the counting
semaphore still has available. -/
structure FanoutState where
  tasks : List TaskPhase
  avail : Nat
deriving DecidableEq

/-- The state in which `NiktoScanner.scan` starts its gather (lines
118-125): every task pending and `asyncio.Semaphore(self.concurrency)`
holding all `cap` permits. -/
def initFanout (cap n : Nat) : FanoutState :=
  { tasks := List.replicate n TaskPhase.pending, avail := cap }

/-- One step of the cooperative scheduler over the fan-out, as the code
shapes it: a pending task enters its `async with sem` block only when a
permit is available, taking one (`acquire`); a running task finishes its
process interaction and leaves the block, returning its permit
(`release`).  The external child process of a worker lives strictly
inside its running phase, the spawn happening after the acquire. -/
inductive FanoutStep : FanoutState → FanoutState → Prop
  | acquire (tasks : List TaskPhase) (avail : Nat) (i : Nat)
      (hi : tasks[i]? = some TaskPhase.pending) (ha : 0 < avail) :
      FanoutStep ⟨tasks, avail⟩ ⟨tasks.set i TaskPhase.running, avail - 1⟩
  | release (tasks : List TaskPhase) (avail : Nat) (i : Nat)
      (hi : tasks[i]? = some TaskPhase.running) :
      FanoutStep ⟨tasks, avail⟩ ⟨tasks.set i TaskPhase.done, avail + 1⟩

/-- The states a fan-out with cap `cap` over `n` targets can reach. -/
def FanoutReachable (cap n : Nat) (s : FanoutState) : Prop :=
  Relation.ReflTransGen FanoutStep (initFanout cap n) s

/-- The number of simultaneously running workers, each holding one live
external child process. -/
def runningCount (s : FanoutState) : Nat :=
  s.tasks.countP (fun t => t == TaskPhase.running)

theorem countP_running_replicate_pending (n : Nat) :
    (List.replicate n TaskPhase.pending).countP
      (fun t => t == TaskPhase.running) = 0 := by
  induction n with
  | zero => rfl
  | succ k ih => simp [List.replicate_succ, List.countP_cons, ih]

theorem fanout_invariant (cap n : Nat) (s : FanoutState)
    (h : FanoutReachable cap n s) : s.avail + runningCount s = cap := by
  induction h with
  | refl => simp [initFanout, runningCount, countP_running_replicate_pending]
  | tail hs step ih =>
    cases step with
    | acquire tasks avail i hi ha =>
      obtain ⟨hlt, hval⟩ := List.getElem?_eq_some.mp hi
      have hcnt := List.countP_set (fun t => t == TaskPhase.running)
        tasks i TaskPhase.running hlt
      rw [hval] at hcnt
      simp at hcnt
      simp only [runningCount] at ih ⊢
      rw [hcnt]
      omega
    | release tasks avail i hi =>
      obtain ⟨hlt, hval⟩ := List.getElem?_eq_some.mp hi
      have hpos : 0 < tasks.countP (fun t => t == TaskPhase.running) :=
        List.countP_pos_iff.mpr ⟨TaskPhase.running, hval ▸ List.getElem_mem hlt, rfl⟩
      have hcnt := List.countP_set (fun t => t == TaskPhase.running)
        tasks i TaskPhase.done hlt
      rw [hval] at hcnt
      simp at hcnt
      simp only [runningCount] at ih ⊢
      rw [hcnt]
      omega

/-- C8: throughout every secondary-scan fan-out with concurrency cap
`cap`, in every reachable scheduler state the number of simultaneously
running workers — hence of simultaneously live external child
processes — never exceeds `cap`, for any number of targets: the
semaphore permit is taken before the process spawn and returned only
after the worker finishes. -/
theorem c8_fanout_bounded_concurrency (cap n : Nat) (s : FanoutState)
    (h : FanoutReachable cap n s) : runningCount s ≤ cap := by
  have hinv := fanout_invariant cap n s h
  omega

/-- C8 witness: with cap 2 and 5 targets, the state after one task
acquires the semaphore is reachable and within the bound. -/
theorem c8_witness :
    runningCount ⟨(List.replicate 5 TaskPhase.pending).set 0 TaskPhase.running, 2 - 1⟩ ≤ 2 :=
  c8_fanout_bounded_concurrency 2 5 _
    (Relation.ReflTransGen.single
      (FanoutStep.acquire (List.replicate 5 TaskPhase.pending) 2 0 (by decide) (by decide)))

/-- Python `s[:n]`. -/
def strTake (s : String) (n : Nat) : String :=
  ⟨s.data.take n⟩

/-- The nmap phase result as consumed downstream: `nmap_results["hosts"]`
(`raw_files` and `scan_stats` are file paths and metadata with no bearing
on the claims).  The empty dict `{}` reads as an empty host list through
`context.get("nmap_results", {}).get("hosts", [])`. -/
structure NmapResults where
  hosts : List HostData := []
deriving DecidableEq

/-- The nikto phase result as consumed downstream:
`nikto_results.get("scans", [])` and the `total` count; the empty dict
and the `{"message": …}` no-targets dict both read as an empty scan
list. -/
structure NiktoResults where
  scans : List ScanEntry := []
  total : Nat := 0
deriving DecidableEq

/-- The outcome of awaiting one plugin's `execute` from the orchestrator:
the plugin is not registered (`next(…, None)` returned `None`), its
coroutine raised, or it returned a result. -/
inductive PluginOutcome (α : Type) where
  | unavailable
  | raised (msg : String)
  | ok (r : α)
deriving DecidableEq

/-- The outcome of one enricher's `execute({"vulnerabilities": …})` in
`_enrich_vulnerabilities`: it raised (caught, list kept), or it returned
a dict — `result.get("vulnerabilities", vulnerabilities)` keeps the
current list when the key is absent and replaces it otherwise. -/
inductive EnrichOutcome where
  | raised (msg : String)
  | returned (vulns : Option (List VulnRecord))

/-- The context dict built by `ScannerManager.run_scan`, restricted to its
data fields (timestamps and durations are wall-clock metadata). -/
structure RunContext where
  targets : List String
  nmap_results : NmapResults
  nikto_results : NiktoResults
  vulnerabilities : List VulnRecord
  scored_vulnerabilities : List VulnRecord
  recommendations : List VulnRecord
  ai_analysis : Option String

namespace ScannerManager

/-- Match `CVE-\d{4}-\d+` at the head of the list: `CVE-`, exactly four
digits, `-`, then a maximal non-empty digit run (`\d+` is greedy); yields
the match and the remaining characters.  Digits are ASCII here (the
source's `\d` also accepts other Unicode digits, which scanner output
never contains). -/
def cveMatchAt (cs : List Char) : Option (List Char × List Char) :=
  match cs with
  | 'C' :: 'V' :: 'E' :: '-' :: d1 :: d2 :: d3 :: d4 :: '-' :: rest =>
    if d1.isDigit && d2.isDigit && d3.isDigit && d4.isDigit then
      match rest.takeWhile Char.isDigit with
      | [] => none
      | digits =>
        some ('C' :: 'V' :: 'E' :: '-' :: d1 :: d2 :: d3 :: d4 :: '-' :: digits,
          rest.dropWhile Char.isDigit)
    else none
  | _ => none

/-- `re.findall(r"CVE-\d{4}-\d+", s)`: non-overlapping matches, scanning
left to right and resuming after each match.  The fuel starts at the
character count and each step consumes at least one character, so it
never runs out before the list does. -/
def findCVEsAux : Nat → List Char → List String
  | 0, _ => []
  | _, [] => []
  | fuel + 1, c :: rest =>
    match cveMatchAt (c :: rest) with
    | some (m, after) => String.mk m :: findCVEsAux fuel after
    | none => findCVEsAux fuel rest

/-- `re.findall(r"CVE-\d{4}-\d+", s)` on a `String`. -/
def findCVEs (s : String) : List String :=
  findCVEsAux s.data.length s.data

/-- `ScannerManager._extract_vulnerabilities` (scanner_manager.py lines
150-205): CVE ids from every script whose id mentions `cve` or `vuln` on
every port of every nmap host, then CVE ids from every nikto finding
description, then deduplication by `(cve_id, host)`. -/
def extract_vulnerabilities (nmapR : NmapResults) (niktoR : NiktoResults) :
    List VulnRecord :=
  let nmap_vulns := nmapR.hosts.flatMap (fun host =>
    host.ports.flatMap (fun port =>
      port.scripts.flatMap (fun script =>
        if strContains (strLower script.id) "cve"
            || strContains (strLower script.id) "vuln" then
          (findCVEs script.output).map (fun cve =>
            { cve_id := some cve
              host := some host.ip
              port := some (.num port.port)
              service := some ((port.service.map ServiceInfo.name).getD "")
              source := some "nmap_script" })
        else [])))
  let nikto_vulns := niktoR.scans.flatMap (fun scan =>
    scan.findings.flatMap (fun finding =>
      (findCVEs finding.description).map (fun cve =>
        { cve_id := some cve
          host := scan.target.host
          port := some (.str scan.target.port)
          service := some "http"
          source := some "nikto"
          description := some (strTake finding.description 200) })))
  dedupe (nmap_vulns ++ nikto_vulns)

/-- `ScannerManager._run_nmap` (lines 113-128): an unavailable plugin
logs `[!] Nmap scanner not available` and returns `{}`; a raising
`execute` is caught, logs `[✗] Nmap scan failed` and returns `{}`; the
run is NOT aborted in either case. -/
def run_nmap (o : PluginOutcome NmapResults) : NmapResults :=
  match o with
  | .unavailable => {}
  | .raised _ => {}
  | .ok r => r

/-- `ScannerManager._run_nikto` (lines 130-148): same boundary policy as
`_run_nmap`. -/
def run_nikto (o : PluginOutcome NiktoResults) : NiktoResults :=
  match o with
  | .unavailable => {}
  | .raised _ => {}
  | .ok r => r

/-- `ScannerManager._enrich_vulnerabilities` (lines 207-228): an empty
list returns early; otherwise each enricher is run in sequence, a raising
enricher is caught and the current list kept. -/
def enrich_vulnerabilities (enrichers : List (List VulnRecord → EnrichOutcome))
    (vulns : List VulnRecord) : List VulnRecord :=
  if vulns = [] then []
  else
    enrichers.foldl (fun acc e =>
      match e acc with
      | .raised _ => acc
      | .returned none => acc
      | .returned (some newList) => newList) vulns

/-- `ScannerManager._run_ai_analysis` (lines 230-251): no provider or a
raising provider yields `None`. -/
def run_ai_analysis (o : PluginOutcome String) : Option String :=
  match o with
  | .unavailable => none
  | .raised _ => none
  | .ok s => some s

end ScannerManager

namespace VulnerabilityEngine

/-- Modelled from the spec: the ranking order of §4.4 Recommendations of
the missing `vulnerability_engine.py` — descending priority score, ties
broken by cveId ascending. -/
def recBefore (a b : VulnRecord) : Bool :=
  decide (b.priority_score.getD 0 < a.priority_score.getD 0)
    || (decide (a.priority_score.getD 0 = b.priority_score.getD 0)
        && charListLt (a.cve_id.getD "").data (b.cve_id.getD "").data)

/-- Ordered insertion for `generate_recommendations`. -/
def insertRec (r : VulnRecord) : List VulnRecord → List VulnRecord
  | [] => [r]
  | x :: xs => if recBefore x r then x :: insertRec r xs else r :: x :: xs

/-- Modelled from the spec:
`VulnerabilityEngine.generate_recommendations` (in the missing
`nmapai/core/vulnerability_engine.py`, called at scanner_manager.py line
99) ranks the scored vulnerabilities by descending score, ties by cveId
ascending; the top-N truncation and rationale strings are presentation
detail not modelled. -/
def generate_recommendations : List VulnRecord → List VulnRecord
  | [] => []
  | r :: rs => insertRec r (generate_recommendations rs)

end VulnerabilityEngine

namespace ScannerManager

/-- The plugin-side outcomes one `run_scan` call awaits. -/
structure PluginOutcomes where
  nmap : PluginOutcome NmapResults
  nikto : PluginOutcome NiktoResults
  enrichers : List (List VulnRecord → EnrichOutcome)
  ai : PluginOutcome String

/-- `ScannerManager.run_scan` (scanner_manager.py lines 66-111): the seven
phases in order — nmap, nikto, extraction, enrichment, scoring,
recommendations, AI analysis — each later phase consuming the earlier
ones' contributions through the context dict; `vulnerabilities` is
overwritten by the enriched list (line 92). -/
def run_scan (targets : List String) (o : PluginOutcomes) : RunContext :=
  let nmap_results := run_nmap o.nmap
  let nikto_results := run_nikto o.nikto
  let vulns := extract_vulnerabilities nmap_results nikto_results
  let enriched := enrich_vulnerabilities o.enrichers vulns
  let scored := VulnerabilityEngine.analyze_vulnerabilities enriched
  let recs := VulnerabilityEngine.generate_recommendations scored
  { targets := targets
    nmap_results := nmap_results
    nikto_results := nikto_results
    vulnerabilities := enriched
    scored_vulnerabilities := scored
    recommendations := recs
    ai_analysis := run_ai_analysis o.ai }

end ScannerManager

/-- nmapai.py `main_async` lines 627-629: after `NmapRunner.run` returns
the nmap process exit code, a nonzero code aborts the whole CLI run by
raising `SystemExit`; the summary, nikto, DursVuln and AI stages run only
after a zero exit code. -/
def cli_after_nmap (rc : Int) : Except String Unit :=
  if rc ≠ 0 then Except.error ("[!] Nmap failed with exit code " ++ toString rc)
  else Except.ok ()

/-- The web target of the C1 counterexample's nikto result. -/
def c1NiktoTarget : WebTarget :=
  { host := some "10.0.0.7", port := "80", scheme := "http", url := "http://10.0.0.7:80" }

/-- The single nikto finding of the C1 counterexample run. -/
def c1NiktoFinding : NiktoFinding :=
  { type := "OSVDB-0", description := "CVE-2021-44228 in header", severity := "info" }

/-- The nikto phase result of the C1 counterexample run. -/
def c1NiktoResults : NiktoResults :=
  { scans := [{ target := c1NiktoTarget, findings := [c1NiktoFinding] }], total := 1 }

/-- The outcome bundle of a run whose primary scan raises while the
secondary scan succeeds. -/
def c1FailOutcomes : ScannerManager.PluginOutcomes :=
  { nmap := .raised "nmap timed out"
    nikto := .ok c1NiktoResults
    enrichers := []
    ai := .unavailable }

/-- C1 counterexample: a run whose primary (nmap) phase raises is not
aborted by the `ScannerManager` orchestrator: the failure is swallowed at
the phase boundary (`nmap_results = {}`), and the run continues through
the later phases — the returned context still carries the secondary
results and a vulnerability extracted from them, instead of a `Failed`
terminal state with an attached error. -/
theorem c1_counterexample :
    (ScannerManager.run_scan ["10.0.0.7"] c1FailOutcomes).nmap_results = {}
      ∧ (ScannerManager.run_scan ["10.0.0.7"] c1FailOutcomes).nikto_results = c1NiktoResults
      ∧ ((ScannerManager.run_scan ["10.0.0.7"] c1FailOutcomes).vulnerabilities.map
          VulnRecord.cve_id) = [some "CVE-2021-44228"] := by
  refine ⟨rfl, rfl, ?_⟩
  decide

/-- C1 (amended): in the `ScannerManager` orchestrator a failing primary
scan is NOT fatal: the exception is caught at the phase boundary, the
primary result is replaced by the empty one, and the run continues
through all later phases, which receive the empty primary result and the
unchanged secondary results.  Only the standalone CLI pipeline
(`main_async`) treats a primary failure as fatal, aborting on any nonzero
nmap exit code before any later stage runs. -/
theorem c1_primary_failure_not_fatal (targets : List String) (msg : String)
    (o : ScannerManager.PluginOutcomes) (hfail : o.nmap = .raised msg) :
    (ScannerManager.run_scan targets o).nmap_results = {}
      ∧ (ScannerManager.run_scan targets o).nikto_results
          = ScannerManager.run_nikto o.nikto
      ∧ (ScannerManager.run_scan targets o).vulnerabilities
          = ScannerManager.enrich_vulnerabilities o.enrichers
              (ScannerManager.extract_vulnerabilities {}
                (ScannerManager.run_nikto o.nikto))
      ∧ (∀ rc : Int, rc ≠ 0 → ∃ e, cli_after_nmap rc = .error e) := by
  refine ⟨?_, ?_, ?_, ?_⟩
  · simp [ScannerManager.run_scan, hfail, ScannerManager.run_nmap]
  · rfl
  · simp [ScannerManager.run_scan, hfail, ScannerManager.run_nmap]
  · intro rc hrc
    exact ⟨"[!] Nmap failed with exit code " ++ toString rc,
      by simp [cli_after_nmap, hrc]⟩

/-- C1 witness: the theorem applied to the concrete failing-primary
outcome bundle, and to exit code 1 on the CLI side. -/
theorem c1_witness :
    (ScannerManager.run_scan ["10.0.0.7"] c1FailOutcomes).nmap_results = {}
      ∧ (ScannerManager.run_scan ["10.0.0.7"] c1FailOutcomes).nikto_results
          = ScannerManager.run_nikto c1FailOutcomes.nikto :=
  ⟨(c1_primary_failure_not_fatal ["10.0.0.7"] "nmap timed out" c1FailOutcomes rfl).1,
    (c1_primary_failure_not_fatal ["10.0.0.7"] "nmap timed out" c1FailOutcomes rfl).2.1⟩

end NmapAI
